import Mathlib

/-!
Shallow embedding of the middleware classes in src/myapp/middleware.py and
proofs about their request/response behaviour.

Modelling conventions:
  - A body is a byte sequence, `List Nat` (Django response content is bytes).
  - Response headers are an insertion-ordered association list with
    case-insensitive names, as in Django HttpResponse (which keys its header
    dict by the lowercased name and overwrites on assignment).
  - A Python attribute that a middleware may or may not have set on the
    request object is an `Option` field of `Request`; bare attribute access
    on a missing attribute is a fault, `getattr` with a default is `Option.getD`.
  - `gzip.compress` is an external library primitive, not code of this
    repository; functions that call it take the compression function as an
    explicit argument `gz`, and the round-trip property of gzip is a
    hypothesis where a claim needs it.
  - Logging is a side effect with no bearing on the returned response and is
    elided, except that evaluating the log f-string performs attribute and
    header accesses that can fault; those accesses are kept, in source order.
-/

/-- A byte string, as in Python bytes. -/
abbrev Bytes := List Nat

/-- Containment test: does `pat` occur as a contiguous sublist of the second
argument? Models the Python `in` operator on strings (case-sensitive). -/
def containsSub (pat : List Char) : List Char → Bool
  | [] => pat.isEmpty
  | c :: rest => pat.isPrefixOf (c :: rest) || containsSub pat rest

/-- `hasSubstr s pat` models the Python expression `pat in s` on strings. -/
def hasSubstr (s pat : String) : Bool :=
  containsSub pat.data s.data

/-- ASCII lowercase of one character: models Python `str.lower` on the ASCII
strings (header names and values) this code handles. -/
def lowerChar (c : Char) : Char :=
  if 65 ≤ c.toNat ∧ c.toNat ≤ 90 then Char.ofNat (c.toNat + 32) else c

/-- ASCII lowercase of a string, character by character. -/
def lowerStr (s : String) : String :=
  ⟨s.data.map lowerChar⟩

/-- The cache policy dictionary built by `CacheControlMiddleware.process_request`.
Each field is `none` when the corresponding key is absent from the dict. -/
structure CachePolicy where
  max_age : Option Int
  public : Option Bool
  no_cache : Option Bool
  no_store : Option Bool
deriving DecidableEq

/-- True when the dict has at least one key: the Python truthiness of the
settings dict used by `if cache_control_settings:`. -/
def CachePolicy.nonempty (p : CachePolicy) : Bool :=
  p.max_age.isSome || p.public.isSome || p.no_cache.isSome || p.no_store.isSome

/-- A Django request as the middleware observes it: the Accept-Encoding entry
of `request.META` plus the per-request attributes the middleware stages set. -/
structure Request where
  http_accept_encoding : Option String
  supports_gzip : Option Bool
  custom_cache_control : Option CachePolicy
  start_time : Option Nat
deriving DecidableEq

/-- A Django response: status code, case-insensitive headers, byte body. -/
structure Response where
  status_code : Nat
  headers : List (String × String)
  content : Bytes
deriving DecidableEq

/-- Case-insensitive header lookup, as in Django `response.get` and
`response[name]`. -/
def getHeader : List (String × String) → String → Option String
  | [], _ => none
  | p :: rest, n => if lowerStr p.1 == lowerStr n then some p.2 else getHeader rest n

/-- Case-insensitive header assignment `response[name] = value`: overwrite the
entry with that name in place, else append. -/
def setHeader : List (String × String) → String → String → List (String × String)
  | [], n, v => [(n, v)]
  | p :: rest, n, v =>
    if lowerStr p.1 == lowerStr n then (n, v) :: rest else p :: setHeader rest n v

/-- `SecurityMiddleware.__call__`: run the wrapped handler, then
unconditionally set the three security headers on its response. -/
def securityCall (get_response : Request → Response) (request : Request) : Response :=
  let response := get_response request
  { response with
    headers :=
      setHeader
        (setHeader
          (setHeader response.headers "Content-Security-Policy" "default-src \x27self\x27")
          "X-Content-Type-Options" "nosniff")
        "Strict-Transport-Security" "max-age=31536000; includeSubDomains" }

/-- `CompressionMiddleware.process_request`:
`request.supports_gzip = "gzip" in request.META.get("HTTP_ACCEPT_ENCODING", "")`. -/
def compressionProcessRequest (request : Request) : Request :=
  { request with
    supports_gzip := some (hasSubstr (request.http_accept_encoding.getD "") "gzip") }

/-- `CompressionMiddleware.is_compressible`: lowercase the Content-Type header
(empty default) and test it for the three compressible type substrings. -/
def is_compressible (response : Response) : Bool :=
  let content_type := lowerStr ((getHeader response.headers "Content-Type").getD "")
  hasSubstr content_type "text/html" || hasSubstr content_type "text/css" ||
    hasSubstr content_type "application/javascript"

/-- `CompressionMiddleware.should_compress`:
`getattr(request, "supports_gzip", False) and self.is_compressible(response)`. -/
def should_compress (request : Request) (response : Response) : Bool :=
  request.supports_gzip.getD false && is_compressible response

/-- `CompressionMiddleware.compress_response`, parameterized by the external
gzip primitive `gz`: replace the body by its compression, set
Content-Encoding, set Content-Length to the compressed byte length.
(The `isinstance(content, str)` branch is vacuous here: Django response
content is always bytes, and `Response.content` is a byte sequence.) -/
def compress_response (gz : Bytes → Bytes) (response : Response) : Response :=
  let compressed_content := gz response.content
  { response with
    content := compressed_content
    headers :=
      setHeader
        (setHeader response.headers "Content-Encoding" "gzip")
        "Content-Length" (toString compressed_content.length) }

/-- `CompressionMiddleware.process_response`: compress when `should_compress`
holds, else return the response unchanged. -/
def compressionProcessResponse (gz : Bytes → Bytes) (request : Request)
    (response : Response) : Response :=
  if should_compress request response then compress_response gz response else response

/-- The default cache policy dict attached by
`CacheControlMiddleware.process_request`. -/
def defaultPolicy : CachePolicy :=
  { max_age := some 3600, public := some true
    no_cache := some false, no_store := some false }

/-- `CacheControlMiddleware.process_request`: attach the default policy. -/
def cacheProcessRequest (request : Request) : Request :=
  { request with custom_cache_control := some defaultPolicy }

/-- `CacheControlMiddleware.build_cache_control_header`: join, in fixed order,
`max-age=<n>` when the key is present, then each flag that is present and
true, with the separator `", "`. -/
def build_cache_control_header (settings : CachePolicy) : String :=
  let parts : List String :=
    (match settings.max_age with
      | some n => ["max-age=" ++ toString n]
      | none => []) ++
    (if settings.public == some true then ["public"] else []) ++
    (if settings.no_cache == some true then ["no-cache"] else []) ++
    (if settings.no_store == some true then ["no-store"] else [])
  String.intercalate ", " parts

/-- `CacheControlMiddleware.process_response`:
`getattr(request, "custom_cache_control", None)`, then set the Cache-Control
header only when that value is truthy (present and a non-empty dict). -/
def cacheProcessResponse (request : Request) (response : Response) : Response :=
  match request.custom_cache_control with
  | none => response
  | some settings =>
    if settings.nonempty then
      { response with
        headers :=
          setHeader response.headers "Cache-Control" (build_cache_control_header settings) }
    else response

/-- `RequestResponseLoggerMiddleware.process_response`: the log f-string reads
`response["content-type"]` (KeyError when the header is absent) and then
`request.start_time` (AttributeError when the attribute is absent), in that
evaluation order; when neither faults the response is returned unchanged. -/
def loggerProcessResponse (request : Request) (response : Response) :
    Except String Response :=
  match getHeader response.headers "content-type" with
  | none => .error "KeyError: content-type"
  | some _ =>
    match request.start_time with
    | none => .error "AttributeError: start_time"
    | some _ => .ok response

/-! ## Helper lemmas about the header operations and the substring test -/

theorem getHeader_set_same (hs : List (String × String)) (n v : String) :
    getHeader (setHeader hs n v) n = some v := by
  induction hs with
  | nil => simp [setHeader, getHeader]
  | cons p rest ih =>
    by_cases h : lowerStr p.1 = lowerStr n
    · simp [setHeader, getHeader, h]
    · simp [setHeader, getHeader, h, ih]

theorem getHeader_set_ne (hs : List (String × String)) (n v m : String)
    (hnm : lowerStr n ≠ lowerStr m) :
    getHeader (setHeader hs n v) m = getHeader hs m := by
  induction hs with
  | nil => simp [setHeader, getHeader, hnm]
  | cons p rest ih =>
    by_cases h : lowerStr p.1 = lowerStr n
    · simp [setHeader, getHeader, h, hnm]
    · simp [setHeader, getHeader, h, ih]

theorem isPrefixOf_iff {α : Type} [DecidableEq α] (l₁ l₂ : List α) :
    l₁.isPrefixOf l₂ = true ↔ ∃ t, l₂ = l₁ ++ t := by
  induction l₁ generalizing l₂ with
  | nil => simp [List.isPrefixOf]
  | cons a as ih =>
    cases l₂ with
    | nil => simp [List.isPrefixOf]
    | cons b bs =>
      simp only [List.isPrefixOf, Bool.and_eq_true, beq_iff_eq, ih, List.cons_append,
        List.cons.injEq]
      constructor
      · rintro ⟨hab, t, ht⟩
        exact ⟨t, hab.symm, ht⟩
      · rintro ⟨t, hba, ht⟩
        exact ⟨hba.symm, t, ht⟩

theorem containsSub_iff (pat s : List Char) :
    containsSub pat s = true ↔ ∃ pre post, s = pre ++ pat ++ post := by
  induction s with
  | nil =>
    cases pat with
    | nil =>
      simp only [containsSub, List.isEmpty_nil]
      exact ⟨fun _ => ⟨[], [], rfl⟩, fun _ => trivial⟩
    | cons a as =>
      simp only [containsSub, List.isEmpty_cons]
      constructor
      · intro h
        exact absurd h (by simp)
      · rintro ⟨pre, post, h⟩
        exact absurd h.symm (by simp)
  | cons c rest ih =>
    simp only [containsSub, Bool.or_eq_true, isPrefixOf_iff, ih]
    constructor
    · rintro (⟨t, ht⟩ | ⟨pre, post, h⟩)
      · exact ⟨[], t, by simpa using ht⟩
      · exact ⟨c :: pre, post, by simp [h]⟩
    · rintro ⟨pre, post, h⟩
      cases pre with
      | nil =>
        exact Or.inl ⟨post, by simpa using h⟩
      | cons d ds =>
        have h2 : c = d ∧ rest = ds ++ pat ++ post := by
          simpa using h
        exact Or.inr ⟨ds, post, h2.2⟩

theorem compress_response_content (gz : Bytes → Bytes) (response : Response) :
    (compress_response gz response).content = gz response.content := rfl

theorem compress_response_encoding (gz : Bytes → Bytes) (response : Response) :
    getHeader (compress_response gz response).headers "Content-Encoding" = some "gzip" := by
  show getHeader (setHeader (setHeader response.headers "Content-Encoding" "gzip")
    "Content-Length" (toString (gz response.content).length)) "Content-Encoding" = some "gzip"
  rw [getHeader_set_ne, getHeader_set_same]
  decide

theorem compress_response_length (gz : Bytes → Bytes) (response : Response) :
    getHeader (compress_response gz response).headers "Content-Length"
      = some (toString (gz response.content).length) := by
  show getHeader (setHeader (setHeader response.headers "Content-Encoding" "gzip")
    "Content-Length" (toString (gz response.content).length)) "Content-Length" = _
  rw [getHeader_set_same]

theorem is_compressible_compress (gz : Bytes → Bytes) (response : Response) :
    is_compressible (compress_response gz response) = is_compressible response := by
  simp only [is_compressible, compress_response]
  rw [getHeader_set_ne, getHeader_set_ne]
  · decide
  · decide

/-- A request carrying only an Accept-Encoding entry, for concrete instances. -/
def reqAE (s : Option String) : Request :=
  { http_accept_encoding := s, supports_gzip := none
    custom_cache_control := none, start_time := none }

/-- A text/html response with the given body, for concrete instances. -/
def respHtml (body : Bytes) : Response :=
  { status_code := 200, headers := [("Content-Type", "text/html")], content := body }

/-- A text/html response that already carries Content-Encoding gzip. -/
def respPreEncoded : Response :=
  { status_code := 200
    headers := [("Content-Type", "text/html"), ("Content-Encoding", "gzip")]
    content := [1, 2, 3] }

/-- The empty cache policy dict. -/
def emptyPolicy : CachePolicy :=
  { max_age := none, public := none, no_cache := none, no_store := none }

/-! ## Claims -/

/-- Claim C1: for every wrapped handler and every request, the security
middleware sets Content-Security-Policy, X-Content-Type-Options and
Strict-Transport-Security to exactly their fixed values on the returned
response, overwriting whatever values the handler response carried. -/
theorem security_headers_exact (get_response : Request → Response) (request : Request) :
    getHeader (securityCall get_response request).headers "Content-Security-Policy"
        = some "default-src \x27self\x27" ∧
    getHeader (securityCall get_response request).headers "X-Content-Type-Options"
        = some "nosniff" ∧
    getHeader (securityCall get_response request).headers "Strict-Transport-Security"
        = some "max-age=31536000; includeSubDomains" := by
  refine ⟨?_, ?_, ?_⟩
  · show getHeader (setHeader (setHeader (setHeader (get_response request).headers
      "Content-Security-Policy" "default-src \x27self\x27") "X-Content-Type-Options"
      "nosniff") "Strict-Transport-Security" "max-age=31536000; includeSubDomains")
      "Content-Security-Policy" = some "default-src \x27self\x27"
    rw [getHeader_set_ne, getHeader_set_ne, getHeader_set_same]
    · decide
    · decide
  · show getHeader (setHeader (setHeader (setHeader (get_response request).headers
      "Content-Security-Policy" "default-src \x27self\x27") "X-Content-Type-Options"
      "nosniff") "Strict-Transport-Security" "max-age=31536000; includeSubDomains")
      "X-Content-Type-Options" = some "nosniff"
    rw [getHeader_set_ne, getHeader_set_same]
    decide
  · show getHeader (setHeader (setHeader (setHeader (get_response request).headers
      "Content-Security-Policy" "default-src \x27self\x27") "X-Content-Type-Options"
      "nosniff") "Strict-Transport-Security" "max-age=31536000; includeSubDomains")
      "Strict-Transport-Security" = some "max-age=31536000; includeSubDomains"
    rw [getHeader_set_same]

/-- Claim C2: after the cache-control before stage attached the default
policy, the after stage sets the Cache-Control header to exactly
"max-age=3600, public" on every response. -/
theorem cache_control_default_exact (request : Request) (response : Response) :
    getHeader (cacheProcessResponse (cacheProcessRequest request) response).headers
      "Cache-Control" = some "max-age=3600, public" := by
  have h1 : (cacheProcessResponse (cacheProcessRequest request) response).headers
      = setHeader response.headers "Cache-Control"
          (build_cache_control_header defaultPolicy) := rfl
  rw [h1, getHeader_set_same]
  rfl

/-- Claim C3: with gzip granted by the Accept-Encoding header, a text/html
content type and a non-empty body, the compression after stage yields
Content-Encoding gzip, a body that the gzip inverse maps back to the original
body, and Content-Length equal to the compressed byte length; stated for any
compression primitive `gz` with inverse `gunzip` (the external gzip library
pair satisfies the round-trip hypothesis `hrt`). -/
theorem compression_gzip_roundtrip (gz gunzip : Bytes → Bytes)
    (hrt : ∀ b, gunzip (gz b) = b) (request : Request) (response : Response)
    (hacc : hasSubstr (request.http_accept_encoding.getD "") "gzip" = true)
    (hct : hasSubstr (lowerStr ((getHeader response.headers "Content-Type").getD ""))
        "text/html" = true)
    (hbody : response.content ≠ []) :
    getHeader (compressionProcessResponse gz (compressionProcessRequest request)
        response).headers "Content-Encoding" = some "gzip" ∧
    gunzip (compressionProcessResponse gz (compressionProcessRequest request)
        response).content = response.content ∧
    getHeader (compressionProcessResponse gz (compressionProcessRequest request)
        response).headers "Content-Length"
      = some (toString (compressionProcessResponse gz (compressionProcessRequest request)
          response).content.length) := by
  have hsc : should_compress (compressionProcessRequest request) response = true := by
    simp [should_compress, compressionProcessRequest, is_compressible, hacc, hct]
  have hout : compressionProcessResponse gz (compressionProcessRequest request) response
      = compress_response gz response := by
    simp [compressionProcessResponse, hsc]
  rw [hout]
  exact ⟨compress_response_encoding gz response,
    by rw [compress_response_content]; exact hrt response.content,
    by rw [compress_response_length, compress_response_content]⟩

/-- Witness for C3 at a concrete input: handler response text/html with body
bytes 104, 105, request granting gzip, and the identity pair as the
compression primitive and its inverse. -/
theorem compression_gzip_roundtrip_witness :
    getHeader (compressionProcessResponse (fun b => b)
        (compressionProcessRequest (reqAE (some "gzip"))) (respHtml [104, 105])).headers
        "Content-Encoding" = some "gzip" ∧
    (fun (b : Bytes) => b) (compressionProcessResponse (fun b => b)
        (compressionProcessRequest (reqAE (some "gzip"))) (respHtml [104, 105])).content
      = (respHtml [104, 105]).content ∧
    getHeader (compressionProcessResponse (fun b => b)
        (compressionProcessRequest (reqAE (some "gzip"))) (respHtml [104, 105])).headers
        "Content-Length"
      = some (toString (compressionProcessResponse (fun b => b)
          (compressionProcessRequest (reqAE (some "gzip"))) (respHtml [104, 105])).content.length) :=
  compression_gzip_roundtrip (fun b => b) (fun b => b) (fun _ => rfl)
    (reqAE (some "gzip")) (respHtml [104, 105]) (by decide) (by decide) (by decide)

/-- Claim C4 counterexample: with the gzip capability granted and content type
text/html but an EMPTY body, the after stage still compresses — the body is
replaced by the compression of the empty byte string and Content-Encoding is
set — contradicting the body-nonempty clause of the claim. The compression
primitive is instantiated with a gzip-like function that prepends the two
gzip magic bytes 31 and 139; real gzip output on empty input is likewise
non-empty. -/
theorem compress_empty_body_cex :
    (compressionProcessResponse (fun b => 31 :: 139 :: b)
        (compressionProcessRequest (reqAE (some "gzip"))) (respHtml [])).content
      ≠ (respHtml []).content ∧
    getHeader (compressionProcessResponse (fun b => 31 :: 139 :: b)
        (compressionProcessRequest (reqAE (some "gzip"))) (respHtml [])).headers
        "Content-Encoding" = some "gzip" := by
  decide

/-- Claim C4 (amended): the after stage compresses exactly when the capability
flag is true and the content type matches case-insensitively; body emptiness
is never consulted, so an empty body is compressed like any other, and in all
remaining cases the response is returned unchanged. -/
theorem compress_condition_characterization (gz : Bytes → Bytes)
    (request : Request) (response : Response) :
    (request.supports_gzip.getD false = true → is_compressible response = true →
      (compressionProcessResponse gz request response).content = gz response.content ∧
      getHeader (compressionProcessResponse gz request response).headers "Content-Encoding"
        = some "gzip" ∧
      getHeader (compressionProcessResponse gz request response).headers "Content-Length"
        = some (toString (gz response.content).length)) ∧
    (¬ (request.supports_gzip.getD false = true ∧ is_compressible response = true) →
      compressionProcessResponse gz request response = response) := by
  constructor
  · intro hflag hct
    have hsc : should_compress request response = true := by
      simp [should_compress, hflag, hct]
    have hout : compressionProcessResponse gz request response
        = compress_response gz response := by
      simp [compressionProcessResponse, hsc]
    rw [hout]
    exact ⟨compress_response_content gz response, compress_response_encoding gz response,
      compress_response_length gz response⟩
  · intro hn
    have hsc : should_compress request response = false := by
      cases h1 : request.supports_gzip.getD false <;>
        cases h2 : is_compressible response <;> simp_all [should_compress]
    simp [compressionProcessResponse, hsc]

/-- Witness for the amended C4 at a concrete input, exercising both sides:
the compressing branch on a text/html response with the flag granted. -/
theorem compress_condition_characterization_witness :
    (compressionProcessResponse (fun b => 31 :: 139 :: b)
        (compressionProcessRequest (reqAE (some "gzip"))) (respHtml [7])).content
      = [31, 139, 7] ∧
    getHeader (compressionProcessResponse (fun b => 31 :: 139 :: b)
        (compressionProcessRequest (reqAE (some "gzip"))) (respHtml [7])).headers
        "Content-Encoding" = some "gzip" ∧
    getHeader (compressionProcessResponse (fun b => 31 :: 139 :: b)
        (compressionProcessRequest (reqAE (some "gzip"))) (respHtml [7])).headers
        "Content-Length" = some "3" :=
  (compress_condition_characterization (fun b => 31 :: 139 :: b)
    (compressionProcessRequest (reqAE (some "gzip"))) (respHtml [7])).1
    (by decide) (by decide)

/-- Claim C5 counterexample: on a response that already carries
Content-Encoding gzip (respPreEncoded), with the capability granted, the
after stage does NOT skip: the body is changed, and a second application
changes it again, so the stage is not idempotent. The compression primitive
prepends the gzip magic bytes 31 and 139, as real gzip does. -/
theorem compress_not_idempotent_cex :
    (compressionProcessResponse (fun b => 31 :: 139 :: b)
        (compressionProcessRequest (reqAE (some "gzip"))) respPreEncoded).content
      ≠ respPreEncoded.content ∧
    compressionProcessResponse (fun b => 31 :: 139 :: b)
        (compressionProcessRequest (reqAE (some "gzip")))
        (compressionProcessResponse (fun b => 31 :: 139 :: b)
          (compressionProcessRequest (reqAE (some "gzip"))) respPreEncoded)
      ≠ compressionProcessResponse (fun b => 31 :: 139 :: b)
          (compressionProcessRequest (reqAE (some "gzip"))) respPreEncoded := by
  decide

/-- Claim C5 (amended): the after stage never inspects Content-Encoding, so it
is not idempotent: whenever the capability flag is true and the content type
matches, applying the stage twice compresses the body twice. -/
theorem compress_twice_double_compresses (gz : Bytes → Bytes) (request : Request)
    (response : Response) (hflag : request.supports_gzip = some true)
    (hct : is_compressible response = true) :
    (compressionProcessResponse gz request
        (compressionProcessResponse gz request response)).content
      = gz (gz response.content) := by
  have h1 : should_compress request response = true := by
    simp [should_compress, hflag, hct]
  have hout1 : compressionProcessResponse gz request response
      = compress_response gz response := by
    simp [compressionProcessResponse, h1]
  have h2 : should_compress request (compress_response gz response) = true := by
    simp [should_compress, hflag, is_compressible_compress, hct]
  have hout2 : compressionProcessResponse gz request (compress_response gz response)
      = compress_response gz (compress_response gz response) := by
    simp [compressionProcessResponse, h2]
  rw [hout1, hout2]
  rfl

/-- Witness for the amended C5 at a concrete input: two applications prepend
the magic bytes twice. -/
theorem compress_twice_double_compresses_witness :
    (compressionProcessResponse (fun b => 31 :: 139 :: b)
        (compressionProcessRequest (reqAE (some "gzip")))
        (compressionProcessResponse (fun b => 31 :: 139 :: b)
          (compressionProcessRequest (reqAE (some "gzip"))) (respHtml [7]))).content
      = [31, 139, 31, 139, 7] :=
  compress_twice_double_compresses (fun b => 31 :: 139 :: b)
    (compressionProcessRequest (reqAE (some "gzip"))) (respHtml [7])
    (by decide) (by decide)

/-- Claim C6 counterexample: the Accept-Encoding test in the before stage is
case-sensitive, so the header value GZIP — which contains gzip under
case-insensitive comparison — does NOT grant the capability, contradicting
the case-insensitive clause of the claim. -/
theorem supports_gzip_case_sensitive_cex :
    (compressionProcessRequest (reqAE (some "GZIP"))).supports_gzip = some false ∧
    hasSubstr (lowerStr "GZIP") "gzip" = true := by
  decide

/-- Claim C6 (amended): the before stage sets the capability flag to true
exactly when gzip occurs, case-SENSITIVELY, as a contiguous substring of the
Accept-Encoding request header (empty default when the header is absent). -/
theorem supports_gzip_iff_exact_substring (request : Request) :
    (compressionProcessRequest request).supports_gzip = some true ↔
      ∃ pre post, (request.http_accept_encoding.getD "").data
        = pre ++ "gzip".data ++ post := by
  have h : (compressionProcessRequest request).supports_gzip
      = some (hasSubstr (request.http_accept_encoding.getD "") "gzip") := rfl
  rw [h, Option.some.injEq]
  exact containsSub_iff "gzip".data (request.http_accept_encoding.getD "").data

/-- Witness for the amended C6 at a concrete input: the header value
br, gzip grants the capability, exhibited through the characterization. -/
theorem supports_gzip_iff_exact_substring_witness :
    ∃ pre post, ((reqAE (some "br, gzip")).http_accept_encoding.getD "").data
      = pre ++ "gzip".data ++ post :=
  (supports_gzip_iff_exact_substring (reqAE (some "br, gzip"))).mp (by decide)

/-- Claim C7: when the Accept-Encoding header does not contain gzip, the
before stage records a false capability and the after stage returns the
response completely unchanged — same body, same headers (so no
Content-Encoding added), same status. -/
theorem no_gzip_response_unchanged (gz : Bytes → Bytes) (request : Request)
    (response : Response)
    (hacc : hasSubstr (request.http_accept_encoding.getD "") "gzip" = false) :
    compressionProcessResponse gz (compressionProcessRequest request) response
      = response := by
  have hsc : should_compress (compressionProcessRequest request) response = false := by
    simp [should_compress, compressionProcessRequest, hacc]
  simp [compressionProcessResponse, hsc]

/-- Witness for C7 at a concrete input: Accept-Encoding br does not contain
gzip, so the text/html response passes through untouched. -/
theorem no_gzip_response_unchanged_witness :
    compressionProcessResponse (fun b => 31 :: 139 :: b)
        (compressionProcessRequest (reqAE (some "br"))) (respHtml [7, 8])
      = respHtml [7, 8] :=
  no_gzip_response_unchanged (fun b => 31 :: 139 :: b) (reqAE (some "br"))
    (respHtml [7, 8]) (by decide)

/-- Claim C8 counterexample: on a request with no start time (and a response
that does carry a content type, so the earlier header read succeeds), the
logger after stage faults with an AttributeError from the bare
`request.start_time` access instead of returning the response. -/
theorem logger_missing_start_time_cex :
    loggerProcessResponse (reqAE none) (respHtml [7])
      = Except.error "AttributeError: start_time" := by
  rfl

/-- Claim C8 (amended): the logger after stage returns the response unchanged
only when the request context has a start time; when the start time is absent
it raises (AttributeError) rather than defaulting the elapsed time to 0. The
response is assumed to carry a content type, which the log line reads first. -/
theorem logger_requires_start_time (request : Request) (response : Response)
    (hct : (getHeader response.headers "content-type").isSome = true) :
    (request.start_time.isSome = true →
      loggerProcessResponse request response = Except.ok response) ∧
    (request.start_time = none →
      loggerProcessResponse request response
        = Except.error "AttributeError: start_time") := by
  obtain ⟨v, hv⟩ := Option.isSome_iff_exists.mp hct
  constructor
  · intro h
    obtain ⟨t, ht⟩ := Option.isSome_iff_exists.mp h
    simp [loggerProcessResponse, hv, ht]
  · intro h
    simp [loggerProcessResponse, hv, h]

/-- Witness for the amended C8 at a concrete input: with a start time present
the response comes back unchanged. -/
theorem logger_requires_start_time_witness :
    loggerProcessResponse
        { http_accept_encoding := none, supports_gzip := none
          custom_cache_control := none, start_time := some 5 } (respHtml [7, 8, 9])
      = Except.ok (respHtml [7, 8, 9]) :=
  (logger_requires_start_time
    { http_accept_encoding := none, supports_gzip := none
      custom_cache_control := none, start_time := some 5 } (respHtml [7, 8, 9])
    (by decide)).1 (by decide)

/-- Claim C9 counterexample: with an EMPTY cache policy dict on the request,
the after stage does not set the Cache-Control header at all — the empty dict
is falsy in the `if cache_control_settings:` guard, so the response passes
through unchanged — rather than setting the header to the empty string. -/
theorem cache_empty_policy_cex :
    getHeader (cacheProcessResponse
        { http_accept_encoding := none, supports_gzip := none
          custom_cache_control := some emptyPolicy, start_time := none }
        (respHtml [7])).headers "Cache-Control" = none ∧
    cacheProcessResponse
        { http_accept_encoding := none, supports_gzip := none
          custom_cache_control := some emptyPolicy, start_time := none }
        (respHtml [7])
      = respHtml [7] := by
  decide

/-- Claim C9 (amended): an empty cache policy is skipped exactly like an
absent one: the after stage leaves the response unchanged and adds no
Cache-Control header — even though serializing the empty policy would give
the empty string. -/
theorem cache_empty_policy_skipped (request : Request) (response : Response)
    (hp : request.custom_cache_control = some emptyPolicy) :
    cacheProcessResponse request response = response ∧
    build_cache_control_header emptyPolicy = "" := by
  refine ⟨?_, rfl⟩
  simp [cacheProcessResponse, hp, emptyPolicy, CachePolicy.nonempty]

/-- Witness for the amended C9 at a concrete input. -/
theorem cache_empty_policy_skipped_witness :
    cacheProcessResponse
        { http_accept_encoding := none, supports_gzip := none
          custom_cache_control := some emptyPolicy, start_time := none }
        (respHtml [1, 2]) = respHtml [1, 2] ∧
    build_cache_control_header emptyPolicy = "" :=
  cache_empty_policy_skipped
    { http_accept_encoding := none, supports_gzip := none
      custom_cache_control := some emptyPolicy, start_time := none }
    (respHtml [1, 2]) (by decide)

/-- Claim C10: on a request that lacks the supports gzip attribute entirely
(the before stage never ran), the after stage is total and returns the
response unchanged: the `getattr` default False makes the missing-attribute
case mean not compressible instead of raising. -/
theorem missing_gzip_attribute_unchanged (gz : Bytes → Bytes) (request : Request)
    (response : Response) (h : request.supports_gzip = none) :
    compressionProcessResponse gz request response = response := by
  have hsc : should_compress request response = false := by
    simp [should_compress, h]
  simp [compressionProcessResponse, hsc]

/-- Witness for C10 at a concrete input: a bare request and a compressible
text/html response still pass through untouched. -/
theorem missing_gzip_attribute_unchanged_witness :
    compressionProcessResponse (fun b => 31 :: 139 :: b) (reqAE (some "gzip"))
        (respHtml [7]) = respHtml [7] :=
  missing_gzip_attribute_unchanged (fun b => 31 :: 139 :: b) (reqAE (some "gzip"))
    (respHtml [7]) (by decide)
